import Mathlib

/-!
Verification of the Scilla stake-client guard and delivery logic.

This file shallowly embeds the guard logic of `src/commands/stake.rs`, the
chunked program-upload pipeline of `src/commands/program.rs`, and the
constants of `src/constants.rs`. Pubkeys are abstracted as natural numbers
(only equality is ever used on them); u64 fields become `Nat` with the
sentinel `u64::MAX` written out explicitly; the one place the source casts
to `u32` (`(i * CHUNK_SIZE) as u32`) is modelled with an explicit `% 2^32`.
-/

/-- Decidable equality on `Except`, so that concrete guard results can be
settled by `decide`. -/
instance {ε α : Type} [DecidableEq ε] [DecidableEq α] : DecidableEq (Except ε α) :=
  fun x y =>
    match x, y with
    | Except.ok a, Except.ok b =>
      if h : a = b then Decidable.isTrue (h ▸ rfl)
      else Decidable.isFalse (fun hc => h (Except.ok.inj hc))
    | Except.error a, Except.error b =>
      if h : a = b then Decidable.isTrue (h ▸ rfl)
      else Decidable.isFalse (fun hc => h (Except.error.inj hc))
    | Except.ok _, Except.error _ => Decidable.isFalse (fun hc => Except.noConfusion hc)
    | Except.error _, Except.ok _ => Decidable.isFalse (fun hc => Except.noConfusion hc)

namespace Scilla

/-- From src/constants.rs: `ACTIVE_STAKE_EPOCH_BOUND: u64 = u64::MAX`, the
sentinel meaning "not deactivating" / "never activated". -/
def ACTIVE_STAKE_EPOCH_BOUND : Nat := 2 ^ 64 - 1

/-- From src/constants.rs: `CHUNK_SIZE: usize = 900`. -/
def CHUNK_SIZE : Nat := 900

/-- From solana_rpc_client_api: `DELINQUENT_VALIDATOR_SLOT_DISTANCE: u64 = 128`. -/
def DELINQUENT_VALIDATOR_SLOT_DISTANCE : Nat := 128

/-- The stake program id, abstracted: pubkeys are modelled as naturals and
only compared for equality. -/
def STAKE_PROGRAM_ID : Nat := 0

/-- `Authorized { staker, withdrawer }` from the stake interface. -/
structure Authorized where
  staker : Nat
  withdrawer : Nat
deriving DecidableEq

/-- `Lockup { unix_timestamp, epoch, custodian }` (not consulted by any
guard under verification, carried for fidelity of the state record). -/
structure Lockup where
  unixTimestamp : Int
  epoch : Nat
  custodian : Nat
deriving DecidableEq

/-- `Meta { rent_exempt_reserve, authorized, lockup }`. -/
structure Meta where
  rentExemptReserve : Nat
  authorized : Authorized
  lockup : Lockup
deriving DecidableEq

/-- `Delegation { voter_pubkey, stake, activation_epoch, deactivation_epoch }`.
The source record also carries a deprecated `f64` warmup rate that no guard
reads; it is omitted. -/
structure Delegation where
  voterPubkey : Nat
  stake : Nat
  activationEpoch : Nat
  deactivationEpoch : Nat
deriving DecidableEq

/-- `Stake { delegation, credits_observed }`. -/
structure StakeData where
  delegation : Delegation
  creditsObserved : Nat
deriving DecidableEq

/-- `StakeStateV2`: the tagged union of stake-account states. The `stake`
variant carries the `StakeFlags` third component as an opaque `Nat`. -/
inductive StakeStateV2 where
  | uninitialized : StakeStateV2
  | initialized : Meta → StakeStateV2
  | stake : Meta → StakeData → Nat → StakeStateV2
  | rewardsPool : StakeStateV2
deriving DecidableEq

/-- Rejection reasons of the delegate-time delinquency sanity check
(src/commands/stake.rs lines 444-456). -/
inductive SanityErr where
  | noRootSlot : SanityErr
  | delinquent : Nat → Nat → SanityErr
deriving DecidableEq

/-- The delegate-time sanity check, translated from
src/commands/stake.rs lines 444-456:
an `Ok` when `root_slot >= min_root_slot || activated_stake == 0`, else
"no root slot" when `root_slot == 0`, else the delinquency rejection. -/
def sanityCheck (rootSlot activatedStake minRootSlot : Nat) : Except SanityErr Unit :=
  if rootSlot ≥ minRootSlot ∨ activatedStake = 0 then
    Except.ok ()
  else if rootSlot = 0 then
    Except.error SanityErr.noRootSlot
  else
    Except.error (SanityErr.delinquent rootSlot minRootSlot)

/-- `min_root_slot = slot.saturating_sub(DELINQUENT_VALIDATOR_SLOT_DISTANCE)`
(src/commands/stake.rs lines 438-442); `Nat` subtraction is saturating. -/
def minRootSlot (currentSlot : Nat) : Nat :=
  currentSlot - DELINQUENT_VALIDATOR_SLOT_DISTANCE

/-- Rejection reasons of `process_deactivate_stake_account`
(src/commands/stake.rs lines 679-713). -/
inductive DeactivateErr where
  | notStakeProgram : DeactivateErr
  | decodeFailed : DeactivateErr
  | alreadyDeactivating : Nat → DeactivateErr
  | notAuthorizedStaker : Nat → DeactivateErr
  | initializedNotDelegated : DeactivateErr
  | invalidState : DeactivateErr
deriving DecidableEq

/-- The deactivate guard, translated from the `match stake_state` block of
`process_deactivate_stake_account` (src/commands/stake.rs lines 691-713). -/
def deactivateGuard (st : StakeStateV2) (caller : Nat) : Except DeactivateErr Unit :=
  match st with
  | StakeStateV2.stake meta stakeData _ =>
    if stakeData.delegation.deactivationEpoch ≠ ACTIVE_STAKE_EPOCH_BOUND then
      Except.error (DeactivateErr.alreadyDeactivating stakeData.delegation.deactivationEpoch)
    else if meta.authorized.staker ≠ caller then
      Except.error (DeactivateErr.notAuthorizedStaker meta.authorized.staker)
    else
      Except.ok ()
  | StakeStateV2.initialized _ =>
    Except.error DeactivateErr.initializedNotDelegated
  | _ => Except.error DeactivateErr.invalidState

/-- Rejection reasons of `process_withdraw_stake`
(src/commands/stake.rs lines 731-796). -/
inductive WithdrawErr where
  | notStakeProgram : WithdrawErr
  | decodeFailed : WithdrawErr
  | notAuthorizedWithdrawer : Nat → WithdrawErr
  | stillActive : WithdrawErr
  | coolingDown : Nat → Nat → Nat → WithdrawErr
  | uninitializedAccount : WithdrawErr
  | rewardsPool : WithdrawErr
  | insufficientBalance : WithdrawErr
deriving DecidableEq

/-- The withdraw guard, translated from the `match stake_state` block plus
the balance check of `process_withdraw_stake` (src/commands/stake.rs lines
747-796). `coolingDown current deact remaining` mirrors the source message
"Current epoch: {}, deactivation epoch: {}, epochs remaining: {}" with
`remaining = deactivation_epoch - current_epoch`. -/
def withdrawGuard (st : StakeStateV2) (caller currentEpoch amountLamports accountLamports : Nat) :
    Except WithdrawErr Unit :=
  match st with
  | StakeStateV2.stake meta stakeData _ =>
    if meta.authorized.withdrawer ≠ caller then
      Except.error (WithdrawErr.notAuthorizedWithdrawer meta.authorized.withdrawer)
    else if stakeData.delegation.deactivationEpoch = ACTIVE_STAKE_EPOCH_BOUND then
      Except.error WithdrawErr.stillActive
    else if currentEpoch ≤ stakeData.delegation.deactivationEpoch then
      Except.error (WithdrawErr.coolingDown currentEpoch stakeData.delegation.deactivationEpoch
        (stakeData.delegation.deactivationEpoch - currentEpoch))
    else if amountLamports > accountLamports then
      Except.error WithdrawErr.insufficientBalance
    else
      Except.ok ()
  | StakeStateV2.initialized meta =>
    if meta.authorized.withdrawer ≠ caller then
      Except.error (WithdrawErr.notAuthorizedWithdrawer meta.authorized.withdrawer)
    else if amountLamports > accountLamports then
      Except.error WithdrawErr.insufficientBalance
    else
      Except.ok ()
  | StakeStateV2.uninitialized => Except.error WithdrawErr.uninitializedAccount
  | StakeStateV2.rewardsPool => Except.error WithdrawErr.rewardsPool

/-- Rejection reasons of `process_merge_stake`
(src/commands/stake.rs lines 822-911). -/
inductive MergeErr where
  | duplicateAccount : MergeErr
  | accountMissing : MergeErr
  | decodeFailed : MergeErr
  | destInvalidState : MergeErr
  | wrongAuthority : Nat → Nat → MergeErr
  | sourceDeactivating : Nat → MergeErr
  | srcInvalidState : MergeErr
deriving DecidableEq

/-- The state-level merge checks, translated from the two `match` blocks of
`process_merge_stake` (src/commands/stake.rs lines 863-911): the destination
must be `Initialized` or `Stake`; the source must be `Initialized` or
`Stake` with `authorized.staker` equal to the signing authority, and a
`Stake` source must not be deactivating. -/
def mergeStateGuard (destState srcState : StakeStateV2) (authority : Nat) :
    Except MergeErr Unit :=
  match destState with
  | StakeStateV2.initialized _ | StakeStateV2.stake _ _ _ =>
    match srcState with
    | StakeStateV2.initialized meta =>
      if meta.authorized.staker ≠ authority then
        Except.error (MergeErr.wrongAuthority meta.authorized.staker authority)
      else
        Except.ok ()
    | StakeStateV2.stake meta stakeData _ =>
      if meta.authorized.staker ≠ authority then
        Except.error (MergeErr.wrongAuthority meta.authorized.staker authority)
      else if stakeData.delegation.deactivationEpoch ≠ ACTIVE_STAKE_EPOCH_BOUND then
        Except.error (MergeErr.sourceDeactivating stakeData.delegation.deactivationEpoch)
      else
        Except.ok ()
    | _ => Except.error MergeErr.srcInvalidState
  | _ => Except.error MergeErr.destInvalidState

/-- The full merge guard: the pubkey-uniqueness check of
src/commands/stake.rs lines 831-837 followed by the state checks. -/
def mergeGuard (destPk srcPk : Nat) (destState srcState : StakeStateV2) (authority : Nat) :
    Except MergeErr Unit :=
  if destPk = srcPk then Except.error MergeErr.duplicateAccount
  else mergeStateGuard destState srcState authority

/-- Rejection reasons of `process_split_stake`
(src/commands/stake.rs lines 949-976). -/
inductive SplitErr where
  | samePubkey : SplitErr
  | belowMinimumDelegation : Nat → Nat → SplitErr
deriving DecidableEq

/-- The split guard, translated from `process_split_stake`
(src/commands/stake.rs lines 960-976): reject identical pubkeys, then
reject `lamports < stake_minimum_delegation`. No other check is made; in
particular the source account's balance is never fetched. -/
def splitGuard (stakePk splitPk lamports stakeMinimumDelegation : Nat) : Except SplitErr Unit :=
  if stakePk = splitPk then Except.error SplitErr.samePubkey
  else if lamports < stakeMinimumDelegation then
    Except.error (SplitErr.belowMinimumDelegation stakeMinimumDelegation lamports)
  else
    Except.ok ()

/-- The `u32` range; `(i * CHUNK_SIZE) as u32` in the source is modelled as
reduction modulo this bound. -/
def U32_BOUND : Nat := 2 ^ 32

/-- A write message of the chunk-upload loop: the byte offset carried by the
`write` instruction and the chunk bytes (bytes abstracted as naturals). -/
structure WriteMessage where
  offset : Nat
  chunk : List Nat
deriving DecidableEq

/-- The write-message construction loop of `deploy_program`
(src/commands/program.rs lines 139-150): one message per successive
`CHUNK_SIZE`-byte slice of the binary, message `i` carrying offset
`(i * CHUNK_SIZE) as u32`. The Rust `chunks` iterator is rendered as
take/drop recursion; the enumeration index is the first argument. -/
def buildWriteMessages (i : Nat) (data : List Nat) : List WriteMessage :=
  if h : data = [] then []
  else
    { offset := i * CHUNK_SIZE % U32_BOUND, chunk := data.take CHUNK_SIZE } ::
      buildWriteMessages (i + 1) (data.drop CHUNK_SIZE)
termination_by data.length
decreasing_by
  simp only [List.length_drop]
  have hpos : 0 < data.length := List.length_pos.mpr h
  have hcs : 0 < CHUNK_SIZE := by simp [CHUNK_SIZE]
  omega

/-- The full message sequence for a program binary, enumeration starting at
0 as in the source's `.chunks(CHUNK_SIZE).enumerate()`. -/
def writeMessages (data : List Nat) : List WriteMessage :=
  buildWriteMessages 0 data

/-- A transaction error reported for one write message, abstracted. The
library hands back one `Option<TransactionError>` per message; the source
flattens away the `None`s (src/commands/program.rs lines 179-194). -/
def collectTransactionErrors (results : List (Option Nat)) : List Nat :=
  results.filterMap id

/-- Failure reported when write transactions remain failed after retries. -/
inductive DeployErr where
  | writeFailures : Nat → DeployErr
deriving DecidableEq

/-- The batch gate after the bulk write (src/commands/program.rs lines
196-198): the deployment continues only when the flattened error list is
empty, otherwise it aborts reporting the count of failed transactions. -/
def afterBulkWrite (results : List (Option Nat)) : Except DeployErr Unit :=
  if (collectTransactionErrors results).isEmpty then Except.ok ()
  else Except.error (DeployErr.writeFailures (collectTransactionErrors results).length)

/-- Whether the final `deploy_with_max_program_len` step (src/commands/
program.rs lines 203-214) is reached for the given bulk-write outcomes. -/
def finalDeployIssued (results : List (Option Nat)) : Bool :=
  match afterBulkWrite results with
  | Except.ok _ => true
  | Except.error _ => false

/-- The parallel-submit configuration as instantiated in `deploy_program`
(src/commands/program.rs lines 184-188). -/
structure SendAndConfirmConfig where
  resignTxsCount : Option Nat
  withSpinner : Bool
deriving DecidableEq

/-- The configuration the source passes: `resign_txs_count: Some(5)`,
bounding resubmission of expired messages. -/
def deployWriteConfig : SendAndConfirmConfig :=
  { resignTxsCount := some 5, withSpinner := true }

/-- Errors of the byte-level decoders. -/
inductive DecodeErr where
  | tooShort : DecodeErr
  | limitExceeded : DecodeErr
deriving DecidableEq

/-- One `(epoch, StakeHistoryEntry)` row of the stake-history sysvar
table: epoch plus effective/activating/deactivating stake. -/
structure StakeHistoryRow where
  epoch : Nat
  effective : Nat
  activating : Nat
  deactivating : Nat
deriving DecidableEq

/-- Little-endian u64 read of the first 8 bytes of a buffer. -/
def leU64 (b : List Nat) : Nat :=
  (b.take 8).foldr (fun byte acc => byte + 256 * acc) 0

/-- Serialized size of one stake-history row: four u64 fields. -/
def STAKE_HISTORY_ROW_BYTES : Nat := 32

/-- Bincode-style sequential decode of `n` fixed-size rows. -/
def decodeRows : Nat → List Nat → Except DecodeErr (List StakeHistoryRow)
  | 0, _ => Except.ok []
  | n + 1, b =>
    if b.length < STAKE_HISTORY_ROW_BYTES then Except.error DecodeErr.tooShort
    else
      match decodeRows n (b.drop STAKE_HISTORY_ROW_BYTES) with
      | Except.ok rows =>
        Except.ok
          ({ epoch := leU64 b, effective := leU64 (b.drop 8),
             activating := leU64 (b.drop 16),
             deactivating := leU64 (b.drop 24) } :: rows)
      | Except.error e => Except.error e

/-- Modelled from the spec: the repository's `bincode_deserialize_with_limit`
helper lives in `misc::helpers`, which is not among the provided sources.
Per §4.1 of the spec, decoding the stake-history sysvar table "additionally
accepts an explicit length-limit parameter to avoid unbounded allocation
from an adversarial or corrupted account": the bincode u64 element count at
the head of the buffer is checked against the limit before any rows are
materialised, so the bytes allocated for the decoded table never exceed the
limit, however large the declared count is. -/
def decodeStakeHistoryWithLimit (limit : Nat) (data : List Nat) :
    Except DecodeErr (List StakeHistoryRow) :=
  if data.length < 8 then Except.error DecodeErr.tooShort
  else if 8 + leU64 data * STAKE_HISTORY_ROW_BYTES > limit then
    Except.error DecodeErr.limitExceeded
  else decodeRows (leU64 data) (data.drop 8)

/-- The stake-history decode exactly as `process_stake_history` invokes it
(src/commands/stake.rs lines 1003-1009): the explicit limit passed is the
account's own data length, `account.data.len()`. -/
def processStakeHistoryDecode (data : List Nat) :
    Except DecodeErr (List StakeHistoryRow) :=
  decodeStakeHistoryWithLimit data.length data

/-- Ledger-visible effects a client operation can perform; the only one in
scope is signing-and-submitting a transaction via `build_and_send_tx`. -/
inductive Effect where
  | sendTx : Effect
deriving DecidableEq

/-- Trace model of `process_deactivate_stake_account`
(src/commands/stake.rs lines 679-718): owner check, decode, guard, and only
then `build_and_send_tx`. The first component records the ledger-visible
effects performed, the second the rejection, if any. -/
def processDeactivateModel (owner : Nat) (decoded : Except DecodeErr StakeStateV2)
    (caller : Nat) : List Effect × Option DeactivateErr :=
  if owner ≠ STAKE_PROGRAM_ID then ([], some DeactivateErr.notStakeProgram)
  else
    match decoded with
    | Except.error _ => ([], some DeactivateErr.decodeFailed)
    | Except.ok st =>
      match deactivateGuard st caller with
      | Except.error e => ([], some e)
      | Except.ok _ => ([Effect.sendTx], none)

/-- Trace model of `process_withdraw_stake` (src/commands/stake.rs lines
731-808): owner check, decode, guard (including the balance check), and
only then `build_and_send_tx`. -/
def processWithdrawModel (owner : Nat) (decoded : Except DecodeErr StakeStateV2)
    (caller currentEpoch amountLamports accountLamports : Nat) :
    List Effect × Option WithdrawErr :=
  if owner ≠ STAKE_PROGRAM_ID then ([], some WithdrawErr.notStakeProgram)
  else
    match decoded with
    | Except.error _ => ([], some WithdrawErr.decodeFailed)
    | Except.ok st =>
      match withdrawGuard st caller currentEpoch amountLamports accountLamports with
      | Except.error e => ([], some e)
      | Except.ok _ => ([Effect.sendTx], none)

/-- Trace model of `process_merge_stake` (src/commands/stake.rs lines
822-922): duplicate-pubkey check before the fetch, presence of both
accounts, decode of both states, the two state guards, and only then
`build_and_send_tx`. -/
def processMergeModel (destPk srcPk : Nat)
    (destAcct srcAcct : Option (Except DecodeErr StakeStateV2))
    (authority : Nat) : List Effect × Option MergeErr :=
  if destPk = srcPk then ([], some MergeErr.duplicateAccount)
  else
    match destAcct, srcAcct with
    | none, _ => ([], some MergeErr.accountMissing)
    | some _, none => ([], some MergeErr.accountMissing)
    | some destRes, some srcRes =>
      match destRes with
      | Except.error _ => ([], some MergeErr.decodeFailed)
      | Except.ok destState =>
        match srcRes with
        | Except.error _ => ([], some MergeErr.decodeFailed)
        | Except.ok srcState =>
          match mergeStateGuard destState srcState authority with
          | Except.error e => ([], some e)
          | Except.ok _ => ([Effect.sendTx], none)

/-- Trace model of `process_split_stake` (src/commands/stake.rs lines
949-985): the guard checks, and only then `build_and_send_tx`. -/
def processSplitModel (stakePk splitPk lamports stakeMinimumDelegation : Nat) :
    List Effect × Option SplitErr :=
  match splitGuard stakePk splitPk lamports stakeMinimumDelegation with
  | Except.error e => ([], some e)
  | Except.ok _ => ([Effect.sendTx], none)

/-- The resolved vote account fields the delegate sanity check reads
(`activated_stake` and `root_slot` of the RPC vote-account record). -/
structure VoteAccountInfo where
  rootSlot : Nat
  activatedStake : Nat
deriving DecidableEq

/-- Rejection reasons of `delegate_stake_account`
(src/commands/stake.rs lines 402-461). -/
inductive DelegateErr where
  | notStakeAccount : DelegateErr
  | voteAccountNotFound : DelegateErr
  | sanity : SanityErr → DelegateErr
deriving DecidableEq

/-- Trace model of `delegate_stake_account` up to transaction submission
(src/commands/stake.rs lines 402-469): owner check, vote-account
resolution, delinquency sanity check — whose failure is first formatted
into a discarded "ignoring: …" string, a dead store with no control-flow
effect, and then propagated by `sanity_check?` — and only then
`build_and_send_tx`. -/
def delegateStakeModel (owner : Nat) (voteAccount : Option VoteAccountInfo)
    (currentSlot : Nat) : List Effect × Option DelegateErr :=
  if owner ≠ STAKE_PROGRAM_ID then ([], some DelegateErr.notStakeAccount)
  else
    match voteAccount with
    | none => ([], some DelegateErr.voteAccountNotFound)
    | some v =>
      match sanityCheck v.rootSlot v.activatedStake (minRootSlot currentSlot) with
      | Except.error e => ([], some (DelegateErr.sanity e))
      | Except.ok _ => ([Effect.sendTx], none)

end Scilla

namespace Scilla

/-- C1: the delegate-time delinquency sanity check rejects as delinquent
exactly when `root_slot < current_slot - DELINQUENT_DISTANCE` and
`root_slot != 0` and `activated_stake != 0`; zero activated stake or a root
slot within the distance is never rejected as delinquent-by-distance; and a
zero root slot (below the distance bound, with nonzero stake) fails with
the "no root slot" error instead. -/
theorem delegate_delinquency_check_characterization
    (rootSlot activatedStake currentSlot : Nat) :
    (sanityCheck rootSlot activatedStake (minRootSlot currentSlot) =
        Except.error (SanityErr.delinquent rootSlot
          (currentSlot - DELINQUENT_VALIDATOR_SLOT_DISTANCE)) ↔
      rootSlot < currentSlot - DELINQUENT_VALIDATOR_SLOT_DISTANCE ∧
        rootSlot ≠ 0 ∧ activatedStake ≠ 0) ∧
    (sanityCheck rootSlot activatedStake (minRootSlot currentSlot) =
        Except.error SanityErr.noRootSlot ↔
      rootSlot = 0 ∧ rootSlot < currentSlot - DELINQUENT_VALIDATOR_SLOT_DISTANCE ∧
        activatedStake ≠ 0) := by
  unfold sanityCheck minRootSlot
  split_ifs with h1 h2 <;> simp_all <;> omega

/-- Witness for C1: at root slot 10, stake 5, current slot 1000 the check
reports the delinquency rejection (min root slot `1000 - 128 = 872`). -/
theorem delegate_delinquency_check_characterization_witness :
    sanityCheck 10 5 (minRootSlot 1000) =
      Except.error (SanityErr.delinquent 10 872) := by
  exact (delegate_delinquency_check_characterization 10 5 1000).1.mpr (by decide)

/-- C2: the deactivate guard passes exactly on a `Delegated` state whose
`deactivation_epoch` is the sentinel `u64::MAX` and whose authorized staker
equals the caller; a `Delegated` state with `deactivation_epoch` already set
is rejected with the already-deactivating (wrong-state) error; a
non-matching staker and every non-`Delegated` state are rejected. -/
theorem deactivate_guard_characterization (st : StakeStateV2) (caller : Nat) :
    (deactivateGuard st caller = Except.ok () ↔
      ∃ meta stakeData flags, st = StakeStateV2.stake meta stakeData flags ∧
        stakeData.delegation.deactivationEpoch = ACTIVE_STAKE_EPOCH_BOUND ∧
        meta.authorized.staker = caller) ∧
    (∀ meta stakeData flags, st = StakeStateV2.stake meta stakeData flags →
      stakeData.delegation.deactivationEpoch ≠ ACTIVE_STAKE_EPOCH_BOUND →
      deactivateGuard st caller =
        Except.error (DeactivateErr.alreadyDeactivating
          stakeData.delegation.deactivationEpoch)) ∧
    (∀ meta stakeData flags, st = StakeStateV2.stake meta stakeData flags →
      stakeData.delegation.deactivationEpoch = ACTIVE_STAKE_EPOCH_BOUND →
      meta.authorized.staker ≠ caller →
      deactivateGuard st caller =
        Except.error (DeactivateErr.notAuthorizedStaker meta.authorized.staker)) := by
  refine ⟨?_, ?_, ?_⟩
  · constructor
    · intro h
      cases st with
      | stake meta stakeData flags =>
        by_cases h1 : stakeData.delegation.deactivationEpoch = ACTIVE_STAKE_EPOCH_BOUND
        · by_cases h2 : meta.authorized.staker = caller
          · exact ⟨meta, stakeData, flags, rfl, h1, h2⟩
          · simp [deactivateGuard, h1, h2] at h
        · simp [deactivateGuard, h1] at h
      | uninitialized => simp [deactivateGuard] at h
      | initialized meta => simp [deactivateGuard] at h
      | rewardsPool => simp [deactivateGuard] at h
    · rintro ⟨meta, stakeData, flags, rfl, hEpoch, hStaker⟩
      simp [deactivateGuard, hEpoch, hStaker]
  · rintro meta stakeData flags rfl hEpoch
    simp [deactivateGuard, hEpoch]
  · rintro meta stakeData flags rfl hEpoch hStaker
    simp [deactivateGuard, hEpoch, hStaker]

/-- Witness for C2: a delegated account with sentinel deactivation epoch and
staker 7 passes for caller 7, and once the deactivation epoch is 42 the
guard reports the already-deactivating rejection. -/
theorem deactivate_guard_characterization_witness :
    deactivateGuard
      (StakeStateV2.stake
        ⟨0, ⟨7, 8⟩, ⟨0, 0, 0⟩⟩
        ⟨⟨3, 100, 5, ACTIVE_STAKE_EPOCH_BOUND⟩, 0⟩ 0) 7 = Except.ok () ∧
    deactivateGuard
      (StakeStateV2.stake
        ⟨0, ⟨7, 8⟩, ⟨0, 0, 0⟩⟩
        ⟨⟨3, 100, 5, 42⟩, 0⟩ 0) 7 =
      Except.error (DeactivateErr.alreadyDeactivating 42) := by
  constructor
  · exact (deactivate_guard_characterization
      (StakeStateV2.stake ⟨0, ⟨7, 8⟩, ⟨0, 0, 0⟩⟩
        ⟨⟨3, 100, 5, ACTIVE_STAKE_EPOCH_BOUND⟩, 0⟩ 0) 7).1.mpr
      ⟨_, _, _, rfl, rfl, rfl⟩
  · exact (deactivate_guard_characterization
      (StakeStateV2.stake ⟨0, ⟨7, 8⟩, ⟨0, 0, 0⟩⟩
        ⟨⟨3, 100, 5, 42⟩, 0⟩ 0) 7).2.1 _ _ _ rfl (by decide)

/-- C3: for a `Delegated` stake account the withdraw guard rejects whenever
`deactivation_epoch` is the sentinel or `current_epoch ≤ deactivation_epoch`
(never returning `ok`); with a matching withdrawer the sentinel case reports
the still-active rejection, and the cooldown case reports
`deactivation_epoch - current_epoch` epochs remaining — in particular at
`current_epoch = deactivation_epoch` the cooldown rejection fires with 0
epochs remaining; at `current_epoch = deactivation_epoch + 1` the cooldown
guard passes, leaving at most the balance check. -/
theorem withdraw_guard_cooldown (meta : Meta) (stakeData : StakeData) (flags : Nat)
    (caller currentEpoch amountLamports accountLamports : Nat) :
    ((stakeData.delegation.deactivationEpoch = ACTIVE_STAKE_EPOCH_BOUND ∨
        currentEpoch ≤ stakeData.delegation.deactivationEpoch) →
      withdrawGuard (StakeStateV2.stake meta stakeData flags)
        caller currentEpoch amountLamports accountLamports ≠ Except.ok ()) ∧
    (meta.authorized.withdrawer = caller →
      stakeData.delegation.deactivationEpoch = ACTIVE_STAKE_EPOCH_BOUND →
      withdrawGuard (StakeStateV2.stake meta stakeData flags)
        caller currentEpoch amountLamports accountLamports =
        Except.error WithdrawErr.stillActive) ∧
    (meta.authorized.withdrawer = caller →
      stakeData.delegation.deactivationEpoch ≠ ACTIVE_STAKE_EPOCH_BOUND →
      currentEpoch ≤ stakeData.delegation.deactivationEpoch →
      withdrawGuard (StakeStateV2.stake meta stakeData flags)
        caller currentEpoch amountLamports accountLamports =
        Except.error (WithdrawErr.coolingDown currentEpoch
          stakeData.delegation.deactivationEpoch
          (stakeData.delegation.deactivationEpoch - currentEpoch))) ∧
    (meta.authorized.withdrawer = caller →
      stakeData.delegation.deactivationEpoch ≠ ACTIVE_STAKE_EPOCH_BOUND →
      currentEpoch = stakeData.delegation.deactivationEpoch + 1 →
      withdrawGuard (StakeStateV2.stake meta stakeData flags)
        caller currentEpoch amountLamports accountLamports =
          Except.ok () ∨
        withdrawGuard (StakeStateV2.stake meta stakeData flags)
          caller currentEpoch amountLamports accountLamports =
          Except.error WithdrawErr.insufficientBalance) := by
  refine ⟨?_, ?_, ?_, ?_⟩
  · intro hcond h
    simp only [withdrawGuard] at h
    split_ifs at h with h1 h2 h3 h4
    rcases hcond with hc | hc
    · exact h2 hc
    · exact h3 hc
  · intro hAuth hEpoch
    simp [withdrawGuard, hAuth, hEpoch]
  · intro hAuth hEpoch hCool
    simp [withdrawGuard, hAuth, hEpoch, hCool]
  · intro hAuth hEpoch hNext
    by_cases hBal : amountLamports > accountLamports
    · right
      simp [withdrawGuard, hAuth, hEpoch, hNext, hBal]
    · left
      simp [withdrawGuard, hAuth, hEpoch, hNext, hBal]

/-- Witness for C3: withdrawer 9, deactivation epoch 50. At epoch 50 the
guard reports cooling down with 0 epochs remaining; at epoch 51 it passes
(ample balance); with sentinel deactivation epoch it reports still-active. -/
theorem withdraw_guard_cooldown_witness :
    withdrawGuard (StakeStateV2.stake ⟨0, ⟨7, 9⟩, ⟨0, 0, 0⟩⟩ ⟨⟨3, 100, 5, 50⟩, 0⟩ 0)
        9 50 10 1000 = Except.error (WithdrawErr.coolingDown 50 50 0) ∧
    withdrawGuard (StakeStateV2.stake ⟨0, ⟨7, 9⟩, ⟨0, 0, 0⟩⟩ ⟨⟨3, 100, 5, 50⟩, 0⟩ 0)
        9 51 10 1000 = Except.ok () ∧
    withdrawGuard
        (StakeStateV2.stake ⟨0, ⟨7, 9⟩, ⟨0, 0, 0⟩⟩
          ⟨⟨3, 100, 5, ACTIVE_STAKE_EPOCH_BOUND⟩, 0⟩ 0)
        9 50 10 1000 = Except.error WithdrawErr.stillActive := by
  refine ⟨?_, ?_, ?_⟩
  · exact (withdraw_guard_cooldown ⟨0, ⟨7, 9⟩, ⟨0, 0, 0⟩⟩ ⟨⟨3, 100, 5, 50⟩, 0⟩ 0
      9 50 10 1000).2.2.1 rfl (by decide) (by decide)
  · have h := (withdraw_guard_cooldown ⟨0, ⟨7, 9⟩, ⟨0, 0, 0⟩⟩ ⟨⟨3, 100, 5, 50⟩, 0⟩ 0
      9 51 10 1000).2.2.2 rfl (by decide) (by decide)
    rcases h with h | h
    · exact h
    · exact absurd h (by decide)
  · exact (withdraw_guard_cooldown ⟨0, ⟨7, 9⟩, ⟨0, 0, 0⟩⟩
      ⟨⟨3, 100, 5, ACTIVE_STAKE_EPOCH_BOUND⟩, 0⟩ 0 9 50 10 1000).2.1 rfl rfl

/-- Counterexample for C4: two stake accounts whose authorized stakers
differ (1 versus 2) merge without rejection when the signing authority
matches the source account's staker — `process_merge_stake` never compares
the destination's staker with anything, so the claimed wrong-authority
rejection does not occur. -/
theorem merge_different_stakers_not_rejected :
    mergeGuard 10 11
      (StakeStateV2.initialized ⟨0, ⟨1, 1⟩, ⟨0, 0, 0⟩⟩)
      (StakeStateV2.initialized ⟨0, ⟨2, 2⟩, ⟨0, 0, 0⟩⟩) 2 = Except.ok () ∧
    (1 : Nat) ≠ 2 := by decide

/-- C4 (amended): the merge guard rejects with the wrong-authority error
exactly when the SOURCE account's authorized staker differs from the
signing authority (the destination's staker is never checked); a source in
`Delegated` state that is mid-deactivation is rejected; with matching
source authority and a non-deactivating source the guard passes. -/
theorem merge_guard_source_authority (destPk srcPk : Nat) (destState : StakeStateV2)
    (dm : Meta) (dsd : StakeData) (df : Nat) (sm : Meta) (ss : StakeData) (sf : Nat)
    (auth : Nat) (hne : destPk ≠ srcPk)
    (hdest : destState = StakeStateV2.initialized dm ∨
      destState = StakeStateV2.stake dm dsd df) :
    (mergeGuard destPk srcPk destState (StakeStateV2.stake sm ss sf) auth =
        Except.ok () ↔
      sm.authorized.staker = auth ∧
        ss.delegation.deactivationEpoch = ACTIVE_STAKE_EPOCH_BOUND) ∧
    (sm.authorized.staker ≠ auth →
      mergeGuard destPk srcPk destState (StakeStateV2.stake sm ss sf) auth =
        Except.error (MergeErr.wrongAuthority sm.authorized.staker auth)) ∧
    (sm.authorized.staker = auth →
      ss.delegation.deactivationEpoch ≠ ACTIVE_STAKE_EPOCH_BOUND →
      mergeGuard destPk srcPk destState (StakeStateV2.stake sm ss sf) auth =
        Except.error (MergeErr.sourceDeactivating ss.delegation.deactivationEpoch)) ∧
    (mergeGuard destPk srcPk destState (StakeStateV2.initialized sm) auth =
        Except.ok () ↔
      sm.authorized.staker = auth) := by
  rcases hdest with rfl | rfl <;>
  · refine ⟨?_, ?_, ?_, ?_⟩
    · by_cases hA : sm.authorized.staker = auth
      · by_cases hD : ss.delegation.deactivationEpoch = ACTIVE_STAKE_EPOCH_BOUND
        · simp [mergeGuard, mergeStateGuard, hne, hA, hD]
        · simp [mergeGuard, mergeStateGuard, hne, hA, hD]
      · simp [mergeGuard, mergeStateGuard, hne, hA]
    · intro hA
      simp [mergeGuard, mergeStateGuard, hne, hA]
    · intro hA hD
      simp [mergeGuard, mergeStateGuard, hne, hA, hD]
    · by_cases hA : sm.authorized.staker = auth <;>
        simp [mergeGuard, mergeStateGuard, hne, hA]

/-- Witness for C4 (amended): signing authority 5 against a source whose
staker is 2 yields the wrong-authority rejection. -/
theorem merge_guard_source_authority_witness :
    mergeGuard 10 11
      (StakeStateV2.initialized ⟨0, ⟨1, 1⟩, ⟨0, 0, 0⟩⟩)
      (StakeStateV2.stake ⟨0, ⟨2, 2⟩, ⟨0, 0, 0⟩⟩
        ⟨⟨3, 100, 5, ACTIVE_STAKE_EPOCH_BOUND⟩, 0⟩ 0) 5 =
      Except.error (MergeErr.wrongAuthority 2 5) := by
  exact (merge_guard_source_authority 10 11 _ ⟨0, ⟨1, 1⟩, ⟨0, 0, 0⟩⟩
    ⟨⟨0, 0, 0, 0⟩, 0⟩ 0 ⟨0, ⟨2, 2⟩, ⟨0, 0, 0⟩⟩
    ⟨⟨3, 100, 5, ACTIVE_STAKE_EPOCH_BOUND⟩, 0⟩ 0 5 (by decide)
    (Or.inl rfl)).2.1 (by decide)

/-- The side condition the spec's state machine annotation demands of a
split: both resulting sides — the moved lamports and what remains in the
source — are at least the cluster minimum delegation. Stated from the
spec's words for comparison against the code's `splitGuard`. -/
def splitSidesMeetMinimum (sourceBalance lamports minDelegation : Nat) : Prop :=
  minDelegation ≤ lamports ∧ minDelegation ≤ sourceBalance - lamports

/-- Counterexample for C5: a split of 1000 lamports out of a 1500-lamport
source at minimum delegation 1000 is permitted by the guard although the
source side would be left with 500 < 1000 — `process_split_stake` never
fetches the source balance, so the "each resulting side" condition is not
enforced. -/
theorem split_guard_ignores_source_remainder :
    splitGuard 1 2 1000 1000 = Except.ok () ∧
    ¬ splitSidesMeetMinimum 1500 1000 1000 := by
  refine ⟨by decide, ?_⟩
  intro h
  exact absurd h.2 (by decide)

/-- C5 (amended): the split guard passes exactly when the two pubkeys
differ and the requested lamports are at least the cluster minimum stake
delegation; identical pubkeys and amounts below the minimum are rejected,
but the remaining balance on the source side is not checked. -/
theorem split_guard_characterization (stakePk splitPk lamports minDelegation : Nat) :
    (splitGuard stakePk splitPk lamports minDelegation = Except.ok () ↔
      stakePk ≠ splitPk ∧ minDelegation ≤ lamports) ∧
    (stakePk ≠ splitPk → lamports < minDelegation →
      splitGuard stakePk splitPk lamports minDelegation =
        Except.error (SplitErr.belowMinimumDelegation minDelegation lamports)) := by
  constructor
  · unfold splitGuard
    split_ifs with h1 h2 <;> simp_all
  · intro h1 h2
    simp [splitGuard, h1, h2]

/-- Witness for C5 (amended): requesting 999 lamports below a minimum of
1000 yields the insufficient-amount rejection. -/
theorem split_guard_characterization_witness :
    splitGuard 1 2 999 1000 =
      Except.error (SplitErr.belowMinimumDelegation 1000 999) := by
  exact (split_guard_characterization 1 2 999 1000).2 (by decide) (by decide)

/-- C6: the bulk chunk upload succeeds as a whole exactly when zero write
messages end in a terminal error after retries; any remaining failures are
reported as a count, the final deploy step is issued only on a clean batch,
and resubmission is bounded by the configured resign count of five. -/
theorem bulk_write_zero_failures_gate (results : List (Option Nat)) :
    (afterBulkWrite results = Except.ok () ↔
      collectTransactionErrors results = []) ∧
    (collectTransactionErrors results ≠ [] →
      afterBulkWrite results =
        Except.error (DeployErr.writeFailures
          (collectTransactionErrors results).length)) ∧
    (finalDeployIssued results = true ↔ afterBulkWrite results = Except.ok ()) ∧
    deployWriteConfig.resignTxsCount = some 5 := by
  by_cases h : collectTransactionErrors results = []
  · simp [afterBulkWrite, finalDeployIssued, deployWriteConfig, h]
  · simp [afterBulkWrite, finalDeployIssued, deployWriteConfig, h,
      List.isEmpty_iff]

/-- Witness for C6: a batch with one failed message aborts reporting one
failure and does not reach the final deploy step, while a clean batch does. -/
theorem bulk_write_zero_failures_gate_witness :
    afterBulkWrite [some 3, none] = Except.error (DeployErr.writeFailures 1) ∧
    finalDeployIssued [some 3, none] = false ∧
    finalDeployIssued [none, none] = true := by
  refine ⟨?_, ?_, ?_⟩
  · exact (bulk_write_zero_failures_gate [some 3, none]).2.1 (by decide)
  · have h := (bulk_write_zero_failures_gate [some 3, none]).2.1 (by decide)
    simp [finalDeployIssued, h]
  · exact (bulk_write_zero_failures_gate [none, none]).2.2.1.mpr
      ((bulk_write_zero_failures_gate [none, none]).1.mpr (by decide))

theorem buildWriteMessages_nil (i : Nat) : buildWriteMessages i [] = [] := by
  rw [buildWriteMessages]
  simp

theorem buildWriteMessages_cons (i : Nat) (data : List Nat) (h : data ≠ []) :
    buildWriteMessages i data =
      { offset := i * CHUNK_SIZE % U32_BOUND, chunk := data.take CHUNK_SIZE } ::
        buildWriteMessages (i + 1) (data.drop CHUNK_SIZE) := by
  rw [buildWriteMessages]
  simp [h]

theorem buildWriteMessages_getElem (j i : Nat) (data : List Nat)
    (hj : j * CHUNK_SIZE < data.length) :
    (buildWriteMessages i data)[j]? =
      some { offset := (i + j) * CHUNK_SIZE % U32_BOUND,
             chunk := (data.drop (j * CHUNK_SIZE)).take CHUNK_SIZE } := by
  induction j generalizing i data with
  | zero =>
    have hne : data ≠ [] := by
      intro hnil
      rw [hnil] at hj
      simp at hj
    rw [buildWriteMessages_cons i data hne]
    simp
  | succ j ih =>
    have hne : data ≠ [] := by
      intro hnil
      rw [hnil] at hj
      simp at hj
    rw [buildWriteMessages_cons i data hne]
    rw [List.getElem?_cons_succ]
    rw [ih (i + 1) (data.drop CHUNK_SIZE)
      (by simp only [List.length_drop, CHUNK_SIZE] at hj ⊢; omega)]
    have e1 : (i + 1 + j) * CHUNK_SIZE % U32_BOUND =
        (i + (j + 1)) * CHUNK_SIZE % U32_BOUND := by
      have e : i + 1 + j = i + (j + 1) := by omega
      rw [e]
    have e2 : ((data.drop CHUNK_SIZE).drop (j * CHUNK_SIZE)).take CHUNK_SIZE =
        (data.drop ((j + 1) * CHUNK_SIZE)).take CHUNK_SIZE := by
      rw [List.drop_drop]
      have e : CHUNK_SIZE + j * CHUNK_SIZE = (j + 1) * CHUNK_SIZE := by ring
      rw [e]
    rw [e1, e2]

theorem buildWriteMessages_length (n i : Nat) (data : List Nat)
    (hn : data.length ≤ n) :
    (buildWriteMessages i data).length =
      (data.length + CHUNK_SIZE - 1) / CHUNK_SIZE := by
  induction n generalizing i data with
  | zero =>
    have : data = [] := List.length_eq_zero.mp (by omega)
    subst this
    rw [buildWriteMessages_nil]
    simp [CHUNK_SIZE]
  | succ n ih =>
    by_cases hne : data = []
    · subst hne
      rw [buildWriteMessages_nil]
      simp [CHUNK_SIZE]
    · rw [buildWriteMessages_cons i data hne]
      have hpos : 0 < data.length := List.length_pos.mpr hne
      rw [List.length_cons,
        ih (i + 1) (data.drop CHUNK_SIZE)
          (by simp only [List.length_drop, CHUNK_SIZE] at hn ⊢; omega)]
      simp only [List.length_drop, CHUNK_SIZE]
      omega

/-- Counterexample for C7: the source computes the offset as
`(i * CHUNK_SIZE) as u32`, so for a binary of 4,294,968,300 bytes
(4,772,187 full chunks) the message at chunk index 4,772,186 carries offset
`4772186 * 900 mod 2^32 = 104`, not the claimed byte offset
`4772186 * 900 = 4294967400`. -/
theorem write_message_offset_wraps_at_u32 :
    ((writeMessages (List.replicate (4772187 * 900) 0))[4772186]?).map
        WriteMessage.offset = some 104 ∧
    (104 : Nat) ≠ 4772186 * CHUNK_SIZE := by
  have hj : 4772186 * CHUNK_SIZE <
      (List.replicate (4772187 * 900) (0 : Nat)).length := by
    simp only [CHUNK_SIZE, List.length_replicate]
    norm_num
  have h := buildWriteMessages_getElem 4772186 0
    (List.replicate (4772187 * 900) 0) hj
  constructor
  · unfold writeMessages
    rw [h]
    simp only [Option.map_some']
    norm_num [CHUNK_SIZE, U32_BOUND]
  · norm_num [CHUNK_SIZE]

/-- C7 (amended): chunking at `CHUNK_SIZE = 900` produces one write message
per chunk (`⌈len / 900⌉` messages in all); chunk `j` is the 900-byte slice
at byte `j * 900`, full except for a possibly shorter final chunk, and its
message carries offset `(j * 900) mod 2^32`, which equals `j * 900` for
every binary small enough that the offset fits a `u32` (in particular for
the 2000-byte example: 3 chunks of 900, 900, 200 bytes at offsets 0, 900,
1800). -/
theorem chunking_characterization (data : List Nat) (j : Nat)
    (hj : j * CHUNK_SIZE < data.length) :
    ((writeMessages data)[j]? =
      some { offset := j * CHUNK_SIZE % U32_BOUND,
             chunk := (data.drop (j * CHUNK_SIZE)).take CHUNK_SIZE }) ∧
    (j * CHUNK_SIZE + CHUNK_SIZE ≤ data.length →
      ((writeMessages data)[j]?).map (fun m => m.chunk.length) =
        some CHUNK_SIZE) ∧
    (data.length < j * CHUNK_SIZE + CHUNK_SIZE →
      ((writeMessages data)[j]?).map (fun m => m.chunk.length) =
        some (data.length - j * CHUNK_SIZE)) ∧
    (j * CHUNK_SIZE < U32_BOUND →
      ((writeMessages data)[j]?).map WriteMessage.offset =
        some (j * CHUNK_SIZE)) ∧
    (writeMessages data).length = (data.length + CHUNK_SIZE - 1) / CHUNK_SIZE := by
  have h := buildWriteMessages_getElem j 0 data hj
  rw [Nat.zero_add] at h
  refine ⟨?_, ?_, ?_, ?_, ?_⟩
  · exact h
  · intro hfull
    unfold writeMessages
    rw [h]
    simp only [Option.map_some', List.length_take, List.length_drop]
    congr 1
    omega
  · intro hshort
    unfold writeMessages
    rw [h]
    simp only [Option.map_some', List.length_take, List.length_drop]
    congr 1
    omega
  · intro hu32
    unfold writeMessages
    rw [h]
    simp only [Option.map_some']
    congr 1
    exact Nat.mod_eq_of_lt hu32
  · exact buildWriteMessages_length data.length 0 data le_rfl

/-- Witness for C7 (amended): the 2000-byte binary yields exactly 3
messages — chunks of 900, 900 and 200 bytes at offsets 0, 900, 1800. -/
theorem chunking_characterization_witness :
    (writeMessages (List.replicate 2000 0)).length = 3 ∧
    (writeMessages (List.replicate 2000 0))[0]? =
      some { offset := 0, chunk := List.replicate 900 0 } ∧
    (writeMessages (List.replicate 2000 0))[1]? =
      some { offset := 900, chunk := List.replicate 900 0 } ∧
    (writeMessages (List.replicate 2000 0))[2]? =
      some { offset := 1800, chunk := List.replicate 200 0 } := by
  refine ⟨?_, ?_, ?_, ?_⟩
  · have h := (chunking_characterization (List.replicate 2000 0) 0
      (by simp only [CHUNK_SIZE, List.length_replicate]; omega)).2.2.2.2
    rw [h]
    simp only [CHUNK_SIZE, List.length_replicate]
  · have h := (chunking_characterization (List.replicate 2000 0) 0
      (by simp only [CHUNK_SIZE, List.length_replicate]; omega)).1
    rw [h]
    simp only [CHUNK_SIZE, U32_BOUND, Nat.zero_mul, List.drop_zero,
      List.take_replicate]
    norm_num
  · have h := (chunking_characterization (List.replicate 2000 0) 1
      (by simp only [CHUNK_SIZE, List.length_replicate]; omega)).1
    rw [h]
    simp only [CHUNK_SIZE, U32_BOUND, List.drop_replicate, List.take_replicate]
    norm_num
  · have h := (chunking_characterization (List.replicate 2000 0) 2
      (by simp only [CHUNK_SIZE, List.length_replicate]; omega)).1
    rw [h]
    simp only [CHUNK_SIZE, U32_BOUND, List.drop_replicate, List.take_replicate]
    norm_num

theorem decodeRows_length (n : Nat) (b : List Nat) (rows : List StakeHistoryRow)
    (h : decodeRows n b = Except.ok rows) : rows.length = n := by
  induction n generalizing b rows with
  | zero =>
    simp only [decodeRows] at h
    cases h
    rfl
  | succ n ih =>
    simp only [decodeRows] at h
    split_ifs at h with hlen
    cases hrec : decodeRows n (b.drop STAKE_HISTORY_ROW_BYTES) with
    | ok rest =>
      rw [hrec] at h
      cases h
      simp [ih _ _ hrec]
    | error e =>
      rw [hrec] at h
      cases h

/-- C8: the stake-history decoder takes an explicit length limit and any
successfully decoded table occupies at most `limit` bytes (8-byte count
plus 32 bytes per row); `process_stake_history` passes the account's own
data length as the limit, so a decoded table never allocates more rows
than the adversarial account's own byte size can justify. -/
theorem stake_history_decode_allocation_bounded (limit : Nat) (data : List Nat)
    (rows : List StakeHistoryRow) :
    (decodeStakeHistoryWithLimit limit data = Except.ok rows →
      8 + rows.length * STAKE_HISTORY_ROW_BYTES ≤ limit) ∧
    (processStakeHistoryDecode data = Except.ok rows →
      8 + rows.length * STAKE_HISTORY_ROW_BYTES ≤ data.length) := by
  have key : ∀ lim : Nat, decodeStakeHistoryWithLimit lim data = Except.ok rows →
      8 + rows.length * STAKE_HISTORY_ROW_BYTES ≤ lim := by
    intro lim h
    unfold decodeStakeHistoryWithLimit at h
    split_ifs at h with h1 h2
    have hlen := decodeRows_length (leU64 data) (data.drop 8) rows h
    rw [hlen]
    omega
  exact ⟨key limit, key data.length⟩

/-- Witness for C8: a 40-byte account declaring one row decodes to a
single row, and the allocation bound `8 + 1 * 32 ≤ 40` holds with the
account's own length as the limit. -/
theorem stake_history_decode_allocation_bounded_witness :
    8 + ([⟨0, 0, 0, 0⟩] : List StakeHistoryRow).length * STAKE_HISTORY_ROW_BYTES ≤
      (((1 :: List.replicate 7 0) ++ List.replicate 32 0) : List Nat).length := by
  exact (stake_history_decode_allocation_bounded
    ((1 :: List.replicate 7 0) ++ List.replicate 32 0).length
    ((1 :: List.replicate 7 0) ++ List.replicate 32 0) [⟨0, 0, 0, 0⟩]).2
    (by decide)

theorem processDeactivateModel_shape (owner : Nat)
    (decoded : Except DecodeErr StakeStateV2) (caller : Nat) :
    (processDeactivateModel owner decoded caller).1 = [] ∨
    (processDeactivateModel owner decoded caller).2 = none := by
  unfold processDeactivateModel
  split_ifs with ho
  · left; rfl
  · cases decoded with
    | error e => left; rfl
    | ok st => cases hg : deactivateGuard st caller <;> simp [hg]

theorem processWithdrawModel_shape (owner : Nat)
    (decoded : Except DecodeErr StakeStateV2)
    (caller currentEpoch amountLamports accountLamports : Nat) :
    (processWithdrawModel owner decoded caller currentEpoch amountLamports
      accountLamports).1 = [] ∨
    (processWithdrawModel owner decoded caller currentEpoch amountLamports
      accountLamports).2 = none := by
  unfold processWithdrawModel
  split_ifs with ho
  · left; rfl
  · cases decoded with
    | error e => left; rfl
    | ok st =>
      cases hg : withdrawGuard st caller currentEpoch amountLamports accountLamports <;>
        simp [hg]

theorem processMergeModel_shape (destPk srcPk : Nat)
    (destAcct srcAcct : Option (Except DecodeErr StakeStateV2)) (authority : Nat) :
    (processMergeModel destPk srcPk destAcct srcAcct authority).1 = [] ∨
    (processMergeModel destPk srcPk destAcct srcAcct authority).2 = none := by
  unfold processMergeModel
  split_ifs with ho
  · left; rfl
  · match destAcct, srcAcct with
    | none, _ => left; rfl
    | some _, none => left; rfl
    | some (Except.error _), some _ => left; rfl
    | some (Except.ok destState), some (Except.error _) => left; rfl
    | some (Except.ok destState), some (Except.ok srcState) =>
      cases hg : mergeStateGuard destState srcState authority <;> simp [hg]

theorem processSplitModel_shape (stakePk splitPk lamports stakeMinimumDelegation : Nat) :
    (processSplitModel stakePk splitPk lamports stakeMinimumDelegation).1 = [] ∨
    (processSplitModel stakePk splitPk lamports stakeMinimumDelegation).2 = none := by
  unfold processSplitModel
  cases hg : splitGuard stakePk splitPk lamports stakeMinimumDelegation <;> simp [hg]

/-- C9: in each of the four guarded stake operations — deactivate,
withdraw, merge, split — a rejection (a `some` error in the trace model)
means the effect trace is empty: no transaction is ever signed or
submitted on a guard failure, since every rejection occurs before
`build_and_send_tx` is reached. -/
theorem guard_rejection_sends_no_transaction (owner caller currentEpoch
    amountLamports accountLamports destPk srcPk authority stakePk splitPk
    lamports stakeMinimumDelegation : Nat)
    (decoded decodedW : Except DecodeErr StakeStateV2)
    (destAcct srcAcct : Option (Except DecodeErr StakeStateV2)) :
    ((processDeactivateModel owner decoded caller).2 ≠ none →
      (processDeactivateModel owner decoded caller).1 = []) ∧
    ((processWithdrawModel owner decodedW caller currentEpoch amountLamports
        accountLamports).2 ≠ none →
      (processWithdrawModel owner decodedW caller currentEpoch amountLamports
        accountLamports).1 = []) ∧
    ((processMergeModel destPk srcPk destAcct srcAcct authority).2 ≠ none →
      (processMergeModel destPk srcPk destAcct srcAcct authority).1 = []) ∧
    ((processSplitModel stakePk splitPk lamports stakeMinimumDelegation).2 ≠ none →
      (processSplitModel stakePk splitPk lamports stakeMinimumDelegation).1 = []) := by
  refine ⟨?_, ?_, ?_, ?_⟩
  · intro h
    rcases processDeactivateModel_shape owner decoded caller with h1 | h2
    · exact h1
    · exact absurd h2 h
  · intro h
    rcases processWithdrawModel_shape owner decodedW caller currentEpoch
      amountLamports accountLamports with h1 | h2
    · exact h1
    · exact absurd h2 h
  · intro h
    rcases processMergeModel_shape destPk srcPk destAcct srcAcct authority with h1 | h2
    · exact h1
    · exact absurd h2 h
  · intro h
    rcases processSplitModel_shape stakePk splitPk lamports
      stakeMinimumDelegation with h1 | h2
    · exact h1
    · exact absurd h2 h

/-- Witness for C9: concrete rejected requests — deactivate on an
uninitialized account, withdraw from a rewards pool, merge of an account
with itself, split below the minimum — all leave the effect trace empty. -/
theorem guard_rejection_sends_no_transaction_witness :
    (processDeactivateModel STAKE_PROGRAM_ID
      (Except.ok StakeStateV2.uninitialized) 7).1 = [] ∧
    (processWithdrawModel STAKE_PROGRAM_ID
      (Except.ok StakeStateV2.rewardsPool) 7 10 5 100).1 = [] ∧
    (processMergeModel 3 3 none none 7).1 = [] ∧
    (processSplitModel 1 2 999 1000).1 = [] := by
  refine ⟨?_, ?_, ?_, ?_⟩
  · exact (guard_rejection_sends_no_transaction STAKE_PROGRAM_ID 7 10 5 100
      3 3 7 1 2 999 1000 (Except.ok StakeStateV2.uninitialized)
      (Except.ok StakeStateV2.rewardsPool) none none).1 (by decide)
  · exact (guard_rejection_sends_no_transaction STAKE_PROGRAM_ID 7 10 5 100
      3 3 7 1 2 999 1000 (Except.ok StakeStateV2.uninitialized)
      (Except.ok StakeStateV2.rewardsPool) none none).2.1 (by decide)
  · exact (guard_rejection_sends_no_transaction STAKE_PROGRAM_ID 7 10 5 100
      3 3 7 1 2 999 1000 (Except.ok StakeStateV2.uninitialized)
      (Except.ok StakeStateV2.rewardsPool) none none).2.2.1 (by decide)
  · exact (guard_rejection_sends_no_transaction STAKE_PROGRAM_ID 7 10 5 100
      3 3 7 1 2 999 1000 (Except.ok StakeStateV2.uninitialized)
      (Except.ok StakeStateV2.rewardsPool) none none).2.2.2 (by decide)

/-- C10: whenever the delinquency sanity check of `delegate_stake_account`
produces an error, that very error is propagated out of the operation (the
discarded "ignoring: …" string has no control-flow effect) and the effect
trace is empty — delegation never builds or sends a transaction after a
failed delinquency check. -/
theorem delegate_sanity_error_propagates (v : VoteAccountInfo)
    (currentSlot : Nat) (e : SanityErr)
    (he : sanityCheck v.rootSlot v.activatedStake (minRootSlot currentSlot) =
      Except.error e) :
    delegateStakeModel STAKE_PROGRAM_ID (some v) currentSlot =
      ([], some (DelegateErr.sanity e)) := by
  simp [delegateStakeModel, he]

/-- Witness for C10: root slot 10 with stake 5 at slot 1000 fails the
sanity check as delinquent, and the delegate operation propagates exactly
that error with no transaction sent. -/
theorem delegate_sanity_error_propagates_witness :
    delegateStakeModel STAKE_PROGRAM_ID (some ⟨10, 5⟩) 1000 =
      ([], some (DelegateErr.sanity (SanityErr.delinquent 10 872))) := by
  exact delegate_sanity_error_propagates ⟨10, 5⟩ 1000
    (SanityErr.delinquent 10 872) (by decide)

end Scilla
